import Mathlib

/-
Verification of the log-detective repository: a shallow embedding of
src/src/parser.py and of the two detection modules (src/src/detections.py,
imported by the application and the tests as src.detections, and the
root-level detections.py, whose final definitions shadow the earlier ones).

Modelling conventions:
  - A pandas DataFrame of parsed events is a `List Event`; a missing value
    (NaN / NaT / absent column value) is `none`.
  - Timestamps are absolute second counts (proleptic Gregorian calendar,
    seconds since year 1), which order and subtract exactly as Python
    datetime values do; a pandas Timedelta of w minutes is 60 * w seconds.
  - Python regular expressions are embedded as deterministic matchers.
    Each regex used by parser.py has disjoint character classes around its
    greedy quantifiers (or, for SUDO_RE, an explicit backtracking analysis),
    so maximal-munch scanning reproduces Python's leftmost greedy semantics.
    Character classes are modelled over ASCII, the alphabet of auth.log data.
  - A Python exception escaping a function is `none` : the caller of
    parse_auth_log observes either a result list or an abort.
  - Loops with cursors are embedded with an explicit fuel argument equal to
    the number of iterations the Python loop performs on the modelled
    domain (window_minutes >= 0; a negative window would make the source
    itself fault with an IndexError).
-/

set_option maxRecDepth 20000

namespace LogDetective

/-! ## Character classes (Python re: \s, \w, \d over ASCII) -/

def isPySpace (c : Char) : Bool :=
  c == ' ' || c == '\t' || c == '\n' || c == '\r' || c == '\x0b' || c == '\x0c'

def isWordChar (c : Char) : Bool :=
  c.isAlphanum || c == '_'

/-- Python str.strip(): drop whitespace on both ends. -/
def stripChars (cs : List Char) : List Char :=
  ((cs.dropWhile isPySpace).reverse.dropWhile isPySpace).reverse

/-! ## Event record: one row of the parser's output DataFrame -/

structure Event where
  timestamp : Option Int
  host : Option String
  service : Option String
  event_type : String
  username : Option String
  ip : Option String
  raw : String
deriving DecidableEq

/-! ## PREFIX_RE: month(3 word chars) day(1-2 digits) HH:MM:SS host service[pid]?: message -/

structure PrefixParts where
  mon : String
  day : String
  time : String
  host : String
  service : String
  message : String
deriving DecidableEq

/-- One-or-more whitespace (regex \s+), returning the rest after the maximal run. -/
def skipSpaces1 : List Char → Option (List Char)
  | c :: rest => if isPySpace c then some (rest.dropWhile isPySpace) else none
  | [] => none

/-- The regex fragment (?:\[\d+\])?: after the service name. If the optional
bracket group is present but malformed, the retry without the group needs a
':' which the '[' cannot provide, so the whole match fails, as in Python. -/
def pidColon : List Char → Option (List Char)
  | '[' :: t =>
    let ds := t.takeWhile Char.isDigit
    if ds.length = 0 then none
    else
      match t.drop ds.length with
      | ']' :: ':' :: r => some r
      | _ => none
  | ':' :: r => some r
  | _ => none

def prefixMatch (raw : String) : Option PrefixParts :=
  match raw.data with
  | c1 :: c2 :: c3 :: r0 =>
    if isWordChar c1 && isWordChar c2 && isWordChar c3 then do
      let r1 ← skipSpaces1 r0
      let day := r1.takeWhile Char.isDigit
      if day.length = 0 ∨ 2 < day.length then none
      else do
        let r2 ← skipSpaces1 (r1.drop day.length)
        match r2 with
        | h1 :: h2 :: k1 :: m1 :: m2 :: k2 :: s1 :: s2 :: r3 =>
          if h1.isDigit && h2.isDigit && k1 == ':' && m1.isDigit && m2.isDigit
              && k2 == ':' && s1.isDigit && s2.isDigit then do
            let r4 ← skipSpaces1 r3
            let host := r4.takeWhile (fun c => !isPySpace c)
            if host.length = 0 then none
            else do
              let r5 ← skipSpaces1 (r4.drop host.length)
              let service := r5.takeWhile isWordChar
              if service.length = 0 then none
              else do
                let r6 ← pidColon (r5.drop service.length)
                let r7 ← skipSpaces1 r6
                some ⟨String.mk [c1, c2, c3], String.mk day,
                      String.mk [h1, h2, ':', m1, m2, ':', s1, s2],
                      String.mk host, String.mk service, String.mk r7⟩
          else none
        | _ => none
    else none
  | _ => none

/-! ## _parse_timestamp: datetime.strptime(f"{year} {mon} {day} {time}", "%Y %b %d %H:%M:%S").
`none` models the ValueError that strptime or the datetime constructor raises. -/

def monthNum (mon : String) : Option Nat :=
  match mon.data.map Char.toLower with
  | ['j', 'a', 'n'] => some 1
  | ['f', 'e', 'b'] => some 2
  | ['m', 'a', 'r'] => some 3
  | ['a', 'p', 'r'] => some 4
  | ['m', 'a', 'y'] => some 5
  | ['j', 'u', 'n'] => some 6
  | ['j', 'u', 'l'] => some 7
  | ['a', 'u', 'g'] => some 8
  | ['s', 'e', 'p'] => some 9
  | ['o', 'c', 't'] => some 10
  | ['n', 'o', 'v'] => some 11
  | ['d', 'e', 'c'] => some 12
  | _ => none

def digitVal (c : Char) : Nat := c.toNat - 48

/-- The %d directive accepts a 1-2 digit day with value 1..31 ("0" and "00" do not match). -/
def dayNum (ds : List Char) : Option Nat :=
  match ds with
  | [a] =>
    if a.isDigit ∧ 1 ≤ digitVal a then some (digitVal a) else none
  | [a, b] =>
    if a.isDigit ∧ b.isDigit ∧ 1 ≤ 10 * digitVal a + digitVal b
        ∧ 10 * digitVal a + digitVal b ≤ 31 then
      some (10 * digitVal a + digitVal b)
    else none
  | _ => none

/-- %H:%M:%S on the 8-character time field: hour 0-23, minute 0-59, second 0-61
at the directive level (60 and 61 are then rejected by the datetime constructor). -/
def timeNums (ts : List Char) : Option (Nat × Nat × Nat) :=
  match ts with
  | [h1, h2, ':', m1, m2, ':', s1, s2] =>
    if h1.isDigit ∧ h2.isDigit ∧ m1.isDigit ∧ m2.isDigit ∧ s1.isDigit ∧ s2.isDigit
        ∧ 10 * digitVal h1 + digitVal h2 ≤ 23
        ∧ 10 * digitVal m1 + digitVal m2 ≤ 59
        ∧ 10 * digitVal s1 + digitVal s2 ≤ 61 then
      some (10 * digitVal h1 + digitVal h2,
            10 * digitVal m1 + digitVal m2,
            10 * digitVal s1 + digitVal s2)
    else none
  | _ => none

def isLeapYear (y : Nat) : Bool :=
  (y % 4 == 0 && y % 100 != 0) || y % 400 == 0

def daysInMonth (y m : Nat) : Nat :=
  if m = 2 then (if isLeapYear y then 29 else 28)
  else if m = 4 ∨ m = 6 ∨ m = 9 ∨ m = 11 then 30
  else 31

def daysBeforeYear (y : Nat) : Nat :=
  365 * (y - 1) + (y - 1) / 4 - (y - 1) / 100 + (y - 1) / 400

def daysBeforeMonth (y m : Nat) : Nat :=
  (match m with
   | 2 => 31 | 3 => 59 | 4 => 90 | 5 => 120 | 6 => 151 | 7 => 181
   | 8 => 212 | 9 => 243 | 10 => 273 | 11 => 304 | 12 => 334 | _ => 0)
  + (if isLeapYear y ∧ 3 ≤ m then 1 else 0)

/-- Absolute second count of a Gregorian calendar datetime (seconds since year 1).
Orders and subtracts exactly as Python datetime values do. -/
def toSec (y m d h mi s : Nat) : Int :=
  Int.ofNat ((daysBeforeYear y + daysBeforeMonth y m + (d - 1)) * 86400
    + h * 3600 + mi * 60 + s)

/-- Models _parse_timestamp (parser.py lines 44-50). The %Y directive needs a
4-digit year; the month is matched case-insensitively; an impossible
day-of-month or second 60/61 makes the datetime constructor raise (none). -/
def parse_timestamp (mon day time : String) (year : Int) : Option Int := do
  let m ← monthNum mon
  let d ← dayNum day.data
  let (h, mi, s) ← timeNums time.data
  if 1000 ≤ year ∧ year ≤ 9999 ∧ d ≤ daysInMonth year.toNat m ∧ s ≤ 59 then
    some (toSec year.toNat m d h mi s)
  else none

/-! ## Message classification regexes -/

/-- Literal match, returning the remainder. -/
def matchLit : List Char → List Char → Option (List Char)
  | [], cs => some cs
  | l :: ls, c :: cs => if c = l then matchLit ls cs else none
  | _ :: _, [] => none

/-- Greedy \S+ (nonempty), returning the token and the remainder. -/
def takeNonSpace1 (cs : List Char) : Option (List Char × List Char) :=
  let t := cs.takeWhile (fun c => !isPySpace c)
  if t.length = 0 then none else some (t, cs.drop t.length)

/-- Greedy \d+ (nonempty), returning the digits and the remainder. -/
def digits1 (cs : List Char) : Option (List Char × List Char) :=
  let d := cs.takeWhile Char.isDigit
  if d.length = 0 then none else some (d, cs.drop d.length)

/-- The fragment \d+\.\d+\.\d+\.\d+ capturing a dotted-quad address. -/
def ipQuad (cs : List Char) : Option String := do
  let (d1, r1) ← digits1 cs
  let r1b ← matchLit ['.'] r1
  let (d2, r2) ← digits1 r1b
  let r2b ← matchLit ['.'] r2
  let (d3, r3) ← digits1 r2b
  let r3b ← matchLit ['.'] r3
  let (d4, _) ← digits1 r3b
  some (String.mk (d1 ++ '.' :: d2 ++ '.' :: d3 ++ '.' :: d4))

/-- The shared tail (?P<user>\S+) from (?P<ip>\d+\.\d+\.\d+\.\d+) of
FAILED_RE and ACCEPTED_RE. -/
def userFromIp (cs : List Char) : Option (String × String) := do
  let (u, r) ← takeNonSpace1 cs
  let r2 ← matchLit (" from ".data) r
  let ip ← ipQuad r2
  some (String.mk u, ip)

/-- FAILED_RE matched at the current position. The optional group
(?:invalid user )? is tried first (greedy), then dropped, as Python does. -/
def failedAt (cs : List Char) : Option (String × String) := do
  let r ← matchLit ("Failed password for ".data) cs
  match (matchLit ("invalid user ".data) r).bind userFromIp with
  | some p => some p
  | none => userFromIp r

/-- ACCEPTED_RE matched at the current position. -/
def acceptedAt (cs : List Char) : Option (String × String) := do
  let r ← matchLit ("Accepted password for ".data) cs
  userFromIp r

/-- re.search: try the pattern at each position, leftmost match wins. -/
def searchWith {α : Type} (f : List Char → Option α) : List Char → Option α
  | [] => f []
  | c :: rest =>
    match f (c :: rest) with
    | some p => some p
    | none => searchWith f rest

def lastIdxOf (c : Char) : List Char → Option Nat
  | [] => none
  | x :: xs =>
    match lastIdxOf c xs with
    | some i => some (i + 1)
    | none => if x = c then some 0 else none

/-- SUDO_RE = ^(?P<user>\S+)\s*: anchored at the message start. Greedy \S+
with backtracking: first the full non-space token followed by optional spaces
and ':', else the longest proper prefix of the token that ends right before a
':' inside it (the prefix must be nonempty). -/
def sudoMatch (cs : List Char) : Option String :=
  let t := cs.takeWhile (fun c => !isPySpace c)
  if t.length = 0 then none
  else if ((cs.drop t.length).dropWhile isPySpace).head? = some ':' then
    some (String.mk t)
  else
    match lastIdxOf ':' t with
    | some k => if k = 0 then none else some (String.mk (t.take k))
    | none => none

/-- Step 2 of parse_auth_log (parser.py lines 96-117): classify the message,
first match wins, yielding (event_type, username, ip). -/
def classify (msg : String) : String × Option String × Option String :=
  match searchWith failedAt msg.data with
  | some (u, ip) => ("FAILED_LOGIN", some u, some ip)
  | none =>
    match searchWith acceptedAt msg.data with
    | some (u, ip) => ("SUCCESS_LOGIN", some u, some ip)
    | none =>
      match sudoMatch msg.data with
      | some u => ("SUDO", some u, none)
      | none => ("OTHER", none, none)

/-- One iteration of the parse loop body on a stripped non-blank line.
`none` models the uncaught ValueError of _parse_timestamp at parser.py line 91
(m["message"].lstrip() is a no-op here: prefixMatch already consumed the
maximal whitespace run after the colon). -/
def parseLine (year : Int) (raw : String) : Option Event :=
  match prefixMatch raw with
  | none => some ⟨none, none, none, "OTHER", none, none, raw⟩
  | some pp =>
    match parse_timestamp pp.mon pp.day pp.time year with
    | none => none
    | some ts =>
      let c := classify pp.message
      some ⟨some ts, some pp.host, some pp.service, c.1, c.2.1, c.2.2, raw⟩

/-- parse_auth_log (parser.py lines 53-133) on the file's lines, with the
injected year. Blank lines (after stripping) are skipped; any line on which
the timestamp construction raises aborts the whole parse (none). The final
pd.to_datetime(..., errors="coerce") is the identity on this column, which
already holds datetimes and NaT only. -/
def parse_auth_log (lines : List String) (year : Int) : Option (List Event) :=
  match lines with
  | [] => some []
  | line :: rest =>
    let raw := String.mk (stripChars line.data)
    if raw = "" then parse_auth_log rest year
    else do
      let e ← parseLine year raw
      let es ← parse_auth_log rest year
      some (e :: es)

def nonBlankCount (lines : List String) : Nat :=
  (lines.filter (fun l => !(String.mk (stripChars l.data) == ""))).length

/-! ## Detection engine.

Two copies of the detections module exist in the repository: src/src/detections.py
(imported by app.py, run.py and the tests as src.detections) and the root-level
detections.py, whose second, shadowing definition of detect_success_after_failures
is the one the module exports. Where they differ, the packaged variant is embedded
with a V0 suffix. -/

/-- Row filter of Rule A and of the failure subset of Rule B:
FAILED_LOGIN with ip and timestamp present. -/
def failedPred (e : Event) : Bool :=
  decide (e.event_type = "FAILED_LOGIN" ∧ e.ip ≠ none ∧ e.timestamp ≠ none)

/-- Row filter of the success subset of Rule B. -/
def successPred (e : Event) : Bool :=
  decide (e.event_type = "SUCCESS_LOGIN" ∧ e.ip ≠ none ∧ e.timestamp ≠ none)

/-- Timestamp of a filtered row (always present there). -/
def tsD (e : Event) : Int := e.timestamp.getD 0

/-- df.sort_values("timestamp"). pandas does not promise stability for equal
keys; this model uses a stable insertion sort, one of the permitted orders. -/
def sortByTs (l : List Event) : List Event :=
  List.insertionSort (fun a b => tsD a ≤ tsD b) l

/-- Python string comparison: lexicographic by code point. -/
def strLtB : List Char → List Char → Bool
  | [], [] => false
  | [], _ :: _ => true
  | _ :: _, [] => false
  | x :: xs, y :: ys => if x < y then true else if x = y then strLtB xs ys else false

/-- Insert a key into a sorted duplicate-free key list. -/
def insertKey (p : String) : List String → List String
  | [] => [p]
  | q :: rest =>
    if strLtB p.data q.data then p :: q :: rest
    else if p = q then q :: rest
    else q :: insertKey p rest

/-- The keys of df.groupby("ip"): distinct ip values in ascending order. -/
def groupKeys : List Event → List String
  | [] => []
  | e :: rest =>
    match e.ip with
    | some p => insertKey p (groupKeys rest)
    | none => groupKeys rest

/-- One brute-force alert row of the root-level detections.py (dict keys in
insertion order: alert_type, severity, ip, start_time, end_time, count,
evidence, username). -/
structure BFAlert where
  alert_type : String
  severity : String
  ip : String
  start_time : Int
  end_time : Int
  count : Nat
  evidence : String
  username : String
deriving DecidableEq

/-- One brute-force alert row of src/src/detections.py: same fields except
that no username key is ever put in the dict. -/
structure BFAlertV0 where
  alert_type : String
  severity : String
  ip : String
  start_time : Int
  end_time : Int
  count : Nat
  evidence : String
deriving DecidableEq

/-- The while loop: advance left while times[right] - times[left] > window.
The fuel is right - left: for window >= 0 the guard fails at left = right at
the latest (the difference is then 0), so the loop is fully faithful there; a
negative window would instead drive the Python loop past the list bounds into
an IndexError, outside the modelled domain. -/
def advLeft (ts : List Int) (win tR : Int) : Nat → Nat → Nat
  | 0, l => l
  | fuel + 1, l => if win < tR - ts.getD l 0 then advLeft ts win tR fuel (l + 1) else l

/-- Evidence of a brute-force alert: raws[max(left, right-2) : right+1] joined
with " | " (natural subtraction mirrors Python's max with a possibly negative
right - 2). -/
def bfEvidence (raws : List String) (l r : Nat) : String :=
  String.intercalate " | " ((raws.drop (max l (r - 2))).take (r + 1 - max l (r - 2)))

def bfAlertAt (ts : List Int) (raws : List String) (ip : String) (l r : Nat) : BFAlert :=
  ⟨"BRUTE_FORCE_IP", "HIGH", ip, ts.getD l 0, ts.getD r 0, r - l + 1,
   bfEvidence raws l r, "multiple/unknown"⟩

def bfAlertAtV0 (ts : List Int) (raws : List String) (ip : String) (l r : Nat) : BFAlertV0 :=
  ⟨"BRUTE_FORCE_IP", "HIGH", ip, ts.getD l 0, ts.getD r 0, r - l + 1,
   bfEvidence raws l r⟩

/-- The sliding-window scan over one ip's partition: for right in range(len(times)),
shrink the window, and on count >= threshold record one alert and break.
Called with fuel = length of the partition. -/
def bfScanAux (ts : List Int) (raws : List String) (ip : String) (win th : Int) :
    Nat → Nat → Nat → List BFAlert
  | 0, _, _ => []
  | fuel + 1, left, right =>
    let l := advLeft ts win (ts.getD right 0) (right - left) left
    if th ≤ ((right - l + 1 : Nat) : Int) then [bfAlertAt ts raws ip l right]
    else bfScanAux ts raws ip win th fuel l (right + 1)

def bfScanAuxV0 (ts : List Int) (raws : List String) (ip : String) (win th : Int) :
    Nat → Nat → Nat → List BFAlertV0
  | 0, _, _ => []
  | fuel + 1, left, right =>
    let l := advLeft ts win (ts.getD right 0) (right - left) left
    if th ≤ ((right - l + 1 : Nat) : Int) then [bfAlertAtV0 ts raws ip l right]
    else bfScanAuxV0 ts raws ip win th fuel l (right + 1)

/-- detect_bruteforce_by_ip of the root-level detections.py (lines 6-79):
filter failed logins, sort by timestamp, partition by ip (keys ascending,
rows in sorted order), two-pointer scan per partition, at most one alert per
ip. The window is the Timedelta of window_minutes, in seconds. -/
def detect_bruteforce_by_ip (events : List Event) (threshold window_minutes : Int) :
    List BFAlert :=
  let df := events.filter failedPred
  if df.isEmpty then []
  else
    let sorted := sortByTs df
    (groupKeys sorted).flatMap (fun p =>
      let g := sorted.filter (fun e => decide (e.ip = some p))
      bfScanAux (g.map tsD) (g.map Event.raw) p (60 * window_minutes) threshold
        g.length 0 0)

/-- detect_bruteforce_by_ip of src/src/detections.py (lines 6-78): identical
except that the alert dict carries no username key. -/
def detect_bruteforce_by_ip_v0 (events : List Event) (threshold window_minutes : Int) :
    List BFAlertV0 :=
  let df := events.filter failedPred
  if df.isEmpty then []
  else
    let sorted := sortByTs df
    (groupKeys sorted).flatMap (fun p =>
      let g := sorted.filter (fun e => decide (e.ip = some p))
      bfScanAuxV0 (g.map tsD) (g.map Event.raw) p (60 * window_minutes) threshold
        g.length 0 0)

/-! ## Rule B: success after failures -/

/-- The recent_failures subset for one success row: same ip, timestamp in the
half-open interval [success_time - window, success_time). -/
def recentFailures (failures : List Event) (sIp : Option String) (sTs win : Int) :
    List Event :=
  failures.filter (fun f => decide (f.ip = sIp ∧ sTs - win ≤ tsD f ∧ tsD f < sTs))

/-- One alert row of the root-level detect_success_after_failures (its second,
shadowing definition, lines 157-220). start_time is
recent_failures["timestamp"].min(), which is NaT (none) on an empty subset. -/
structure SAFAlert where
  alert_type : String
  severity : String
  ip : Option String
  username : Option String
  start_time : Option Int
  end_time : Int
  count : Nat
  evidence : String
deriving DecidableEq

/-- One alert row of the packaged detect_success_after_failures
(src/src/detections.py lines 81-154): success_time / failure_count, and no
start_time or end_time at all. -/
structure SAFAlertV0 where
  alert_type : String
  severity : String
  ip : Option String
  username : Option String
  success_time : Int
  failure_count : Nat
  evidence : String
deriving DecidableEq

/-- recent_failures.tail(3). -/
def tailLast (n : Nat) (l : List String) : List String := l.drop (l.length - n)

/-- Evidence of a Rule B alert: raws of the last up-to-3 recent failures, then
the success row's raw, joined with " | ". -/
def safEvidence (R : List Event) (s : Event) : String :=
  String.intercalate " | " (tailLast 3 (R.map Event.raw) ++ [s.raw])

/-- recent_failures["timestamp"].min(). -/
def tsMin (R : List Event) : Option Int := (R.map tsD).min?

/-- detect_success_after_failures as exported by the root-level detections.py
(the second definition in the file shadows the first). -/
def detect_success_after_failures (events : List Event)
    (failure_threshold window_minutes : Int) : List SAFAlert :=
  let failures := events.filter failedPred
  let successes := events.filter successPred
  if failures.isEmpty || successes.isEmpty then []
  else
    successes.filterMap (fun s =>
      let R := recentFailures failures s.ip (tsD s) (60 * window_minutes)
      if failure_threshold ≤ (R.length : Int) then
        some ⟨"SUCCESS_AFTER_FAILURES", "HIGH", s.ip, s.username, tsMin R, tsD s,
              R.length, safEvidence R s⟩
      else none)

/-- detect_success_after_failures of src/src/detections.py, the variant the
application and the tests import. -/
def detect_success_after_failures_v0 (events : List Event)
    (failure_threshold window_minutes : Int) : List SAFAlertV0 :=
  let failures := events.filter failedPred
  let successes := events.filter successPred
  if failures.isEmpty || successes.isEmpty then []
  else
    successes.filterMap (fun s =>
      let R := recentFailures failures s.ip (tsD s) (60 * window_minutes)
      if failure_threshold ≤ (R.length : Int) then
        some ⟨"SUCCESS_AFTER_FAILURES", "HIGH", s.ip, s.username, tsD s,
              R.length, safEvidence R s⟩
      else none)

/-! ## Column shapes of the returned DataFrames.

pd.DataFrame(list_of_dicts) has the dict keys as columns in insertion order;
pd.DataFrame(columns=[...]) has exactly those columns; pd.DataFrame([]) has no
columns at all. -/

/-- Columns of the early empty return of detect_bruteforce_by_ip - identical
in both copies of the module (root line 31, packaged line 31): no username. -/
def bf_empty_columns : List String :=
  ["alert_type", "severity", "ip", "start_time", "end_time", "count", "evidence"]

/-- Columns of a nonempty brute-force alert table of the root-level module. -/
def bf_alert_columns : List String :=
  ["alert_type", "severity", "ip", "start_time", "end_time", "count", "evidence",
   "username"]

/-- Columns of a nonempty brute-force alert table of the packaged module. -/
def bf_alert_columns_v0 : List String :=
  ["alert_type", "severity", "ip", "start_time", "end_time", "count", "evidence"]

/-- Columns of the early empty return of the root-level
detect_success_after_failures (line 182). -/
def saf_empty_columns : List String :=
  ["alert_type", "severity", "ip", "username", "start_time", "end_time", "count",
   "evidence"]

/-- Columns of the early empty return of the packaged
detect_success_after_failures (src/src/detections.py lines 110-119). -/
def saf_empty_columns_v0 : List String :=
  ["alert_type", "severity", "ip", "username", "success_time", "failure_count",
   "evidence"]

def saf_alert_columns : List String := saf_empty_columns

def saf_alert_columns_v0 : List String := saf_empty_columns_v0

/-- Modelled from the spec: the Alert table column set named in sections 3, 6
and 7 of the specification, against which the code's shapes are compared. -/
def spec_alert_columns : List String :=
  ["alert_type", "severity", "ip", "username", "start_time", "end_time", "count",
   "evidence"]

/-- Column shape of the DataFrame returned by detect_bruteforce_by_ip (root). -/
def detect_bruteforce_columns (events : List Event) (threshold window_minutes : Int) :
    List String :=
  if (events.filter failedPred).isEmpty then bf_empty_columns
  else if (detect_bruteforce_by_ip events threshold window_minutes).isEmpty then []
  else bf_alert_columns

/-- Column shape of the DataFrame returned by detect_bruteforce_by_ip (packaged). -/
def detect_bruteforce_columns_v0 (events : List Event) (threshold window_minutes : Int) :
    List String :=
  if (events.filter failedPred).isEmpty then bf_empty_columns
  else if (detect_bruteforce_by_ip_v0 events threshold window_minutes).isEmpty then []
  else bf_alert_columns_v0

/-- Column shape of the DataFrame returned by the root-level
detect_success_after_failures. -/
def detect_saf_columns (events : List Event) (failure_threshold window_minutes : Int) :
    List String :=
  if (events.filter failedPred).isEmpty || (events.filter successPred).isEmpty then
    saf_empty_columns
  else if (detect_success_after_failures events failure_threshold window_minutes).isEmpty
  then []
  else saf_alert_columns

/-- Column shape of the DataFrame returned by the packaged
detect_success_after_failures. -/
def detect_saf_columns_v0 (events : List Event) (failure_threshold window_minutes : Int) :
    List String :=
  if (events.filter failedPred).isEmpty || (events.filter successPred).isEmpty then
    saf_empty_columns_v0
  else if (detect_success_after_failures_v0 events failure_threshold window_minutes).isEmpty
  then []
  else saf_alert_columns_v0

/-! ## Supporting lemmas -/

/-- Strict key order used by the groupby model. -/
def keyLt (a b : String) : Prop := strLtB a.data b.data = true

theorem strLtB_irrefl : ∀ cs, strLtB cs cs = false := by
  intro cs
  induction cs with
  | nil => rfl
  | cons x xs ih => simp [strLtB, lt_irrefl, ih]

theorem strLtB_cons_iff (x y : Char) (xs ys : List Char) :
    strLtB (x :: xs) (y :: ys) = true ↔ x < y ∨ (x = y ∧ strLtB xs ys = true) := by
  by_cases h1 : x < y
  · simp [strLtB, h1]
  · by_cases h2 : x = y
    · simp [strLtB, h1, h2]
    · simp [strLtB, h1, h2]

theorem strLtB_trans : ∀ as bs cs, strLtB as bs = true → strLtB bs cs = true →
    strLtB as cs = true := by
  intro as
  induction as with
  | nil =>
    intro bs cs h1 h2
    cases bs with
    | nil => simp [strLtB] at h1
    | cons y ys =>
      cases cs with
      | nil => simp [strLtB] at h2
      | cons z zs => simp [strLtB]
  | cons x xs ih =>
    intro bs cs h1 h2
    cases bs with
    | nil => simp [strLtB] at h1
    | cons y ys =>
      cases cs with
      | nil => simp [strLtB] at h2
      | cons z zs =>
        rw [strLtB_cons_iff] at h1 h2 ⊢
        rcases h1 with h1 | ⟨rfl, h1⟩
        · rcases h2 with h2 | ⟨rfl, h2⟩
          · exact Or.inl (lt_trans h1 h2)
          · exact Or.inl h1
        · rcases h2 with h2 | ⟨rfl, h2⟩
          · exact Or.inl h2
          · exact Or.inr ⟨rfl, ih ys zs h1 h2⟩

theorem strLtB_connex : ∀ as bs, as ≠ bs → strLtB as bs = true ∨ strLtB bs as = true := by
  intro as
  induction as with
  | nil =>
    intro bs hne
    cases bs with
    | nil => exact absurd rfl hne
    | cons y ys => exact Or.inl (by simp [strLtB])
  | cons x xs ih =>
    intro bs hne
    cases bs with
    | nil => exact Or.inr (by simp [strLtB])
    | cons y ys =>
      rcases lt_trichotomy x y with h | h | h
      · exact Or.inl ((strLtB_cons_iff _ _ _ _).mpr (Or.inl h))
      · subst h
        have hne' : xs ≠ ys := by intro he; exact hne (by rw [he])
        rcases ih ys hne' with h | h
        · exact Or.inl ((strLtB_cons_iff _ _ _ _).mpr (Or.inr ⟨rfl, h⟩))
        · exact Or.inr ((strLtB_cons_iff _ _ _ _).mpr (Or.inr ⟨rfl, h⟩))
      · exact Or.inr ((strLtB_cons_iff _ _ _ _).mpr (Or.inl h))

theorem keyLt_irrefl (a : String) : ¬ keyLt a a := by
  simp [keyLt, strLtB_irrefl]

theorem keyLt_trans {a b c : String} (h1 : keyLt a b) (h2 : keyLt b c) : keyLt a c :=
  strLtB_trans _ _ _ h1 h2

theorem keyLt_connex {a b : String} (hne : a ≠ b) : keyLt a b ∨ keyLt b a := by
  have hd : a.data ≠ b.data := by
    intro h
    exact hne (by cases a; cases b; exact congrArg String.mk h)
  exact strLtB_connex _ _ hd

theorem mem_insertKey (x p : String) : ∀ l, x ∈ insertKey p l ↔ x = p ∨ x ∈ l := by
  intro l
  induction l with
  | nil => simp [insertKey]
  | cons q rest ih =>
    by_cases h1 : strLtB p.data q.data
    · simp [insertKey, h1]
    · by_cases h2 : p = q
      · subst h2
        simp [insertKey, h1]
      · simp [insertKey, h1, h2, ih]
        tauto

theorem insertKey_pairwise (p : String) :
    ∀ l, l.Pairwise keyLt → (insertKey p l).Pairwise keyLt := by
  intro l
  induction l with
  | nil => intro _; simp [insertKey, List.pairwise_cons]
  | cons q rest ih =>
    intro h
    rw [List.pairwise_cons] at h
    obtain ⟨hq, hrest⟩ := h
    by_cases h1 : strLtB p.data q.data
    · rw [insertKey, if_pos h1, List.pairwise_cons]
      refine ⟨?_, List.pairwise_cons.mpr ⟨hq, hrest⟩⟩
      intro b hb
      rcases List.mem_cons.mp hb with rfl | hb
      · exact h1
      · exact keyLt_trans h1 (hq b hb)
    · by_cases h2 : p = q
      · rw [insertKey, if_neg h1, if_pos h2]
        exact List.pairwise_cons.mpr ⟨hq, hrest⟩
      · rw [insertKey, if_neg h1, if_neg h2, List.pairwise_cons]
        have hqp : keyLt q p := by
          rcases keyLt_connex h2 with h | h
          · exact absurd h h1
          · exact h
        refine ⟨?_, ih hrest⟩
        intro b hb
        rcases (mem_insertKey b p rest).mp hb with rfl | hb
        · exact hqp
        · exact hq b hb

theorem groupKeys_pairwise : ∀ l : List Event, (groupKeys l).Pairwise keyLt := by
  intro l
  induction l with
  | nil => simp [groupKeys]
  | cons e rest ih =>
    rw [groupKeys]
    cases e.ip with
    | none => exact ih
    | some p => exact insertKey_pairwise p _ ih

theorem groupKeys_nodup (l : List Event) : (groupKeys l).Nodup := by
  refine (groupKeys_pairwise l).imp ?_
  intro a b hab
  intro he
  subst he
  exact keyLt_irrefl a hab

theorem mem_groupKeys (p : String) : ∀ l : List Event,
    p ∈ groupKeys l ↔ ∃ e ∈ l, e.ip = some p := by
  intro l
  induction l with
  | nil => simp [groupKeys]
  | cons e rest ih =>
    rw [groupKeys]
    cases hip : e.ip with
    | none =>
      rw [ih]
      constructor
      · rintro ⟨f, hf, hfp⟩
        exact ⟨f, List.mem_cons_of_mem _ hf, hfp⟩
      · rintro ⟨f, hf, hfp⟩
        rcases List.mem_cons.mp hf with rfl | hf
        · rw [hip] at hfp; exact absurd hfp (by simp)
        · exact ⟨f, hf, hfp⟩
    | some q =>
      rw [mem_insertKey, ih]
      constructor
      · rintro (rfl | ⟨f, hf, hfp⟩)
        · exact ⟨e, List.mem_cons_self e rest, by rw [hip]⟩
        · exact ⟨f, List.mem_cons_of_mem _ hf, hfp⟩
      · rintro ⟨f, hf, hfp⟩
        rcases List.mem_cons.mp hf with rfl | hf
        · rw [hip] at hfp
          exact Or.inl (by injection hfp with h; exact h.symm)
        · exact Or.inr ⟨f, hf, hfp⟩

theorem advLeft_id (ts : List Int) (win tR : Int) (l : Nat)
    (h : ¬ win < tR - ts.getD l 0) : ∀ f, advLeft ts win tR f l = l := by
  intro f
  cases f with
  | zero => rfl
  | succ f => rw [advLeft, if_neg h]

theorem bfScanAux_mem (ts : List Int) (raws : List String) (q : String) (win th : Int) :
    ∀ fuel l r a, a ∈ bfScanAux ts raws q win th fuel l r →
      a.ip = q ∧ a.username = "multiple/unknown" ∧ a.alert_type = "BRUTE_FORCE_IP"
        ∧ a.severity = "HIGH" := by
  intro fuel
  induction fuel with
  | zero => intro l r a ha; simp [bfScanAux] at ha
  | succ f ih =>
    intro l r a ha
    simp only [bfScanAux] at ha
    split at ha
    · rw [List.mem_singleton] at ha
      subst ha
      exact ⟨rfl, rfl, rfl, rfl⟩
    · exact ih _ _ _ ha

theorem bfScanAux_length (ts : List Int) (raws : List String) (q : String) (win th : Int) :
    ∀ fuel l r, (bfScanAux ts raws q win th fuel l r).length ≤ 1 := by
  intro fuel
  induction fuel with
  | zero => intro l r; simp [bfScanAux]
  | succ f ih =>
    intro l r
    simp only [bfScanAux]
    split
    · simp
    · exact ih _ _

/-- Every alert of the root-level brute-force detector carries the literal
username "multiple/unknown" (support for claim C6: this is the behaviour the
spec describes, implemented in the root-level copy only). -/
theorem detect_bruteforce_username (events : List Event) (th w : Int) :
    ∀ a ∈ detect_bruteforce_by_ip events th w, a.username = "multiple/unknown" := by
  intro a ha
  simp only [detect_bruteforce_by_ip] at ha
  split at ha
  · simp at ha
  · obtain ⟨p, _, hmem⟩ := List.mem_flatMap.mp ha
    exact (bfScanAux_mem _ _ _ _ _ _ _ _ _ hmem).2.1

theorem filter_flatMap_single (keys : List String) (f : String → List BFAlert) (p : String)
    (hnd : keys.Nodup) (hf : ∀ q ∈ keys, ∀ a ∈ f q, a.ip = q) :
    (keys.flatMap f).filter (fun a => decide (a.ip = p)) =
      if p ∈ keys then f p else [] := by
  induction keys with
  | nil => simp
  | cons q ks ih =>
    have hq : ∀ a ∈ f q, a.ip = q := hf q (List.mem_cons_self q ks)
    have hks : ∀ q' ∈ ks, ∀ a ∈ f q', a.ip = q' :=
      fun q' hq' => hf q' (List.mem_cons_of_mem _ hq')
    have hnd' : ks.Nodup := (List.nodup_cons.mp hnd).2
    have hqn : q ∉ ks := (List.nodup_cons.mp hnd).1
    rw [List.flatMap_cons, List.filter_append, ih hnd' hks]
    by_cases hpq : p = q
    · subst hpq
      have h1 : (f p).filter (fun a => decide (a.ip = p)) = f p := by
        apply List.filter_eq_self.mpr
        intro a ha
        simp [hq a ha]
      rw [h1, if_neg hqn, if_pos (List.mem_cons_self p ks)]
      simp
    · have h1 : (f q).filter (fun a => decide (a.ip = p)) = [] := by
        apply List.filter_eq_nil_iff.mpr
        intro a ha
        simp [hq a ha]
        intro hc
        exact hpq hc.symm
      rw [h1]
      by_cases hp : p ∈ ks
      · rw [if_pos hp, if_pos (List.mem_cons_of_mem _ hp)]
        simp
      · rw [if_neg hp, if_neg (by simp [hpq, hp])]
        simp

/-- The alerts of detect_bruteforce_by_ip carrying a given ip are exactly the
scan output of that ip's partition (or nothing when the ip has no qualifying
failure). -/
theorem detect_bruteforce_filter_ip (events : List Event) (th w : Int) (p : String) :
    (detect_bruteforce_by_ip events th w).filter (fun a => decide (a.ip = p)) =
      (if p ∈ groupKeys (sortByTs (events.filter failedPred)) then
        bfScanAux
          (((sortByTs (events.filter failedPred)).filter
              (fun e => decide (e.ip = some p))).map tsD)
          (((sortByTs (events.filter failedPred)).filter
              (fun e => decide (e.ip = some p))).map Event.raw)
          p (60 * w) th
          ((sortByTs (events.filter failedPred)).filter
              (fun e => decide (e.ip = some p))).length 0 0
      else []) := by
  simp only [detect_bruteforce_by_ip]
  split
  · rename_i hemp
    have hdf : events.filter failedPred = [] := by
      simpa using hemp
    rw [hdf]
    simp [sortByTs, List.insertionSort, groupKeys]
  · exact filter_flatMap_single _ _ p (groupKeys_nodup _)
      (fun q _ a hmem => (bfScanAux_mem _ _ _ _ _ _ _ _ _ hmem).1)

theorem getD_map_tsD (g : List Event) (i : Nat) (hi : i < g.length) :
    (g.map tsD).getD i 0 = tsD (g.get ⟨i, hi⟩) := by
  rw [List.getD_eq_getElem?_getD, List.getElem?_map, List.getElem?_eq_getElem hi]
  simp

/-- Within a partition whose timestamps pairwise differ by at most the window,
the two-pointer scan never evicts and finds no window of size threshold when
the partition is smaller than the threshold. -/
theorem bfScan_within_no_fire (ts : List Int) (raws : List String) (q : String)
    (win th : Int)
    (hw : ∀ i j, i < ts.length → j < ts.length → ts.getD i 0 - ts.getD j 0 ≤ win)
    (hn : (ts.length : Int) < th) :
    ∀ fuel right, right + fuel = ts.length →
      bfScanAux ts raws q win th fuel 0 right = [] := by
  intro fuel
  induction fuel with
  | zero => intro right _; rfl
  | succ f ih =>
    intro right h
    have hrlt : right < ts.length := by omega
    have h0 : 0 < ts.length := by omega
    have hadv : advLeft ts win (ts.getD right 0) (right - 0) 0 = 0 :=
      advLeft_id ts win _ 0 (by have := hw right 0 hrlt h0; omega) _
    have hc : ¬ th ≤ ((right - 0 + 1 : Nat) : Int) := by omega
    simp only [bfScanAux]
    rw [hadv, if_neg hc]
    exact ih (right + 1) (by omega)

/-- Within such a partition of size at least the threshold, the scan fires
exactly when the cursor first reaches index threshold - 1, emits that single
alert, and stops. -/
theorem bfScan_within_fire (ts : List Int) (raws : List String) (q : String)
    (win th : Int)
    (hw : ∀ i j, i < ts.length → j < ts.length → ts.getD i 0 - ts.getD j 0 ≤ win)
    (h1 : 1 ≤ th) (hn : th ≤ (ts.length : Int)) :
    ∀ fuel right, right + fuel = ts.length → (right : Int) + 1 ≤ th →
      bfScanAux ts raws q win th fuel 0 right = [bfAlertAt ts raws q 0 (th.toNat - 1)] := by
  intro fuel
  induction fuel with
  | zero => intro right h hr; exfalso; omega
  | succ f ih =>
    intro right h hr
    have hrlt : right < ts.length := by omega
    have h0 : 0 < ts.length := by omega
    have hadv : advLeft ts win (ts.getD right 0) (right - 0) 0 = 0 :=
      advLeft_id ts win _ 0 (by have := hw right 0 hrlt h0; omega) _
    simp only [bfScanAux]
    rw [hadv]
    by_cases hc : th ≤ ((right - 0 + 1 : Nat) : Int)
    · rw [if_pos hc]
      have hre : right = th.toNat - 1 := by omega
      rw [hre]
    · rw [if_neg hc]
      exact ih (right + 1) (by omega) (by omega)

/-- On the runs of parse_auth_log that return (no strptime error escaped), the
event count equals the number of non-blank input lines. -/
theorem parse_auth_log_length_of_ok (lines : List String) (year : Int) :
    ∀ es : List Event, parse_auth_log lines year = some es →
      es.length = nonBlankCount lines := by
  induction lines with
  | nil =>
    intro es h
    simp [parse_auth_log] at h
    simp [← h, nonBlankCount]
  | cons line rest ih =>
    intro es h
    rw [parse_auth_log] at h
    by_cases hb : String.mk (stripChars line.data) = ""
    · rw [if_pos hb] at h
      have hnb : nonBlankCount (line :: rest) = nonBlankCount rest := by
        simp [nonBlankCount, List.filter_cons, hb]
      rw [hnb]
      exact ih es h
    · rw [if_neg hb] at h
      have hnb : nonBlankCount (line :: rest) = nonBlankCount rest + 1 := by
        simp [nonBlankCount, List.filter_cons, hb]
      cases he : parseLine year (String.mk (stripChars line.data)) with
      | none => rw [he] at h; simp at h
      | some e =>
        rw [he] at h
        cases hr : parse_auth_log rest year with
        | none => rw [hr] at h; simp at h
        | some es' =>
          rw [hr] at h
          simp at h
          rw [← h]
          simp [hnb, ih es' hr]

/-! ## Claims -/

/-- C1: the claim states that parse_auth_log never raises and that a
prefix-matching line whose month/day/time plus injected year is not a valid
calendar date yields an Event with an absent timestamp. The source instead
calls datetime.strptime with no handler (parser.py line 91), so the
ValueError escapes and the whole parse aborts: on the line below, which
matches PREFIX_RE but names Feb 30, parse_auth_log produces no event
collection at all, contradicting the claim (and the intent visible in the
errors="coerce" coercion at parser.py line 132). -/
theorem c1_invalid_date_aborts_parse :
    (prefixMatch "Feb 30 12:00:00 ubuntu sshd[1]: hello").isSome = true
    ∧ parse_timestamp "Feb" "30" "12:00:00" 2026 = none
    ∧ parse_auth_log ["Feb 30 12:00:00 ubuntu sshd[1]: hello"] 2026 = none :=
  ⟨by decide, by decide, by decide⟩

/-- C2: the claim promises one Event per non-blank line on every input. On a
file with two non-blank lines whose second line carries an impossible
calendar date, the parse aborts (models the uncaught ValueError) and returns
no events at all instead of two. -/
theorem c2_event_count_violated_by_invalid_date :
    nonBlankCount
      ["Jan 28 21:10:01 ubuntu sshd[11]: Accepted password for guenda from 203.0.113.10 port 1 ssh2",
       "Feb 30 12:00:00 ubuntu sshd[1]: x"] = 2
    ∧ parse_auth_log
      ["Jan 28 21:10:01 ubuntu sshd[11]: Accepted password for guenda from 203.0.113.10 port 1 ssh2",
       "Feb 30 12:00:00 ubuntu sshd[1]: x"] 2026 = none :=
  ⟨by decide, by decide⟩

/-- C10: a prefix-matching line whose message matches neither login pattern
but starts with a token that backtracks to a colon - the pam_unix diagnostic
below - is classified SUDO with the token (up to the colon inside it) as
username, although it is not a sudo record. -/
theorem c10_pam_unix_line_classified_sudo :
    searchWith failedAt "pam_unix(sshd:session): session opened for user root".data = none
    ∧ searchWith acceptedAt "pam_unix(sshd:session): session opened for user root".data = none
    ∧ (parse_auth_log
        ["Jan 28 21:10:01 ubuntu sshd[1111]: pam_unix(sshd:session): session opened for user root"]
        2026).map (fun es => es.map (fun e => (e.event_type, e.username)))
      = some [("SUDO", some "pam_unix(sshd:session)")] :=
  ⟨by decide, by decide, by decide⟩

/-- C8: classification assigns exactly one of the four event types, testing
the message against the failed-login, then successful-login, then sudo
pattern, with OTHER as fallback; the first matching rule wins. -/
theorem c8_classification_priority (msg : String) :
    ((classify msg).1 = "FAILED_LOGIN" ∨ (classify msg).1 = "SUCCESS_LOGIN"
      ∨ (classify msg).1 = "SUDO" ∨ (classify msg).1 = "OTHER")
    ∧ (∀ u ip, searchWith failedAt msg.data = some (u, ip) →
        classify msg = ("FAILED_LOGIN", some u, some ip))
    ∧ (searchWith failedAt msg.data = none →
        ∀ u ip, searchWith acceptedAt msg.data = some (u, ip) →
          classify msg = ("SUCCESS_LOGIN", some u, some ip))
    ∧ (searchWith failedAt msg.data = none →
        searchWith acceptedAt msg.data = none →
          ∀ u, sudoMatch msg.data = some u → classify msg = ("SUDO", some u, none))
    ∧ (searchWith failedAt msg.data = none →
        searchWith acceptedAt msg.data = none → sudoMatch msg.data = none →
          classify msg = ("OTHER", none, none)) := by
  refine ⟨?_, ?_, ?_, ?_, ?_⟩
  · cases hf : searchWith failedAt msg.data with
    | some p => simp [classify, hf]
    | none =>
      cases ha : searchWith acceptedAt msg.data with
      | some p => simp [classify, hf, ha]
      | none =>
        cases hs : sudoMatch msg.data with
        | some u => simp [classify, hf, ha, hs]
        | none => simp [classify, hf, ha, hs]
  · intro u ip hf; simp [classify, hf]
  · intro hf u ip ha; simp [classify, hf, ha]
  · intro hf ha u hs; simp [classify, hf, ha, hs]
  · intro hf ha hs; simp [classify, hf, ha, hs]

/-- Witness for C8 at concrete messages: the sudo arm fires only after both
login patterns failed, and a failed-login message takes priority. -/
theorem c8_classification_priority_witness :
    classify "guenda : TTY=pts/0 ; PWD=/home/guenda" = ("SUDO", some "guenda", none)
    ∧ classify "Failed password for root from 1.2.3.4 port 22" =
        ("FAILED_LOGIN", some "root", some "1.2.3.4") :=
  ⟨(c8_classification_priority _).2.2.2.1 (by decide) (by decide) "guenda" (by decide),
   (c8_classification_priority _).2.1 "root" "1.2.3.4" (by decide)⟩

/-- C7: the recent-failure subset counted by detect_success_after_failures
(both copies call the same filter) is exactly the failures with the success's
ip whose timestamp lies in the half-open window [success_time - window,
success_time): the left edge is included, the success instant excluded. -/
theorem c7_recent_failures_half_open (failures : List Event) (sIp : Option String)
    (sTs win : Int) (hw : 0 < win) :
    (∀ f, f ∈ recentFailures failures sIp sTs win ↔
      (f ∈ failures ∧ f.ip = sIp ∧ sTs - win ≤ tsD f ∧ tsD f < sTs))
    ∧ (∀ f, f ∈ failures → f.ip = sIp → tsD f = sTs - win →
        f ∈ recentFailures failures sIp sTs win)
    ∧ (∀ f, tsD f = sTs → f ∉ recentFailures failures sIp sTs win) := by
  have base : ∀ f, f ∈ recentFailures failures sIp sTs win ↔
      (f ∈ failures ∧ f.ip = sIp ∧ sTs - win ≤ tsD f ∧ tsD f < sTs) := by
    intro f
    simp [recentFailures, List.mem_filter, decide_eq_true_iff]
  refine ⟨base, ?_, ?_⟩
  · intro f hm hip hts
    exact (base f).mpr ⟨hm, hip, by omega, by omega⟩
  · intro f hts hmem
    have := (base f).mp hmem
    omega

/-- Witness for C7: with a 30-minute window before a success at second 1800,
a failure at second 0 (exactly success_time - window) is counted and a failure
at second 1800 (exactly success_time) is not. -/
theorem c7_recent_failures_half_open_witness :
    (0 : Int) < 1800
    ∧ (⟨some 0, none, none, "FAILED_LOGIN", none, some "1.1.1.1", "f0"⟩ : Event) ∈
        recentFailures
          [⟨some 0, none, none, "FAILED_LOGIN", none, some "1.1.1.1", "f0"⟩,
           ⟨some 1800, none, none, "FAILED_LOGIN", none, some "1.1.1.1", "f1"⟩]
          (some "1.1.1.1") 1800 1800
    ∧ (⟨some 1800, none, none, "FAILED_LOGIN", none, some "1.1.1.1", "f1"⟩ : Event) ∉
        recentFailures
          [⟨some 0, none, none, "FAILED_LOGIN", none, some "1.1.1.1", "f0"⟩,
           ⟨some 1800, none, none, "FAILED_LOGIN", none, some "1.1.1.1", "f1"⟩]
          (some "1.1.1.1") 1800 1800 :=
  ⟨by decide,
   (c7_recent_failures_half_open _ _ _ _ (by decide)).2.1 _ (by decide) (by decide)
     (by decide),
   (c7_recent_failures_half_open _ _ _ _ (by decide)).2.2 _ (by decide)⟩

/-- C9 counterexample: on an input with no qualifying failures the brute-force
detector does return an empty alert collection, but its column shape is
bf_empty_columns, which is not the claimed shape (it has no username column). -/
theorem c9_bruteforce_empty_shape_counterexample :
    detect_bruteforce_by_ip [] 8 10 = []
    ∧ detect_bruteforce_columns [] 8 10 ≠ spec_alert_columns :=
  ⟨by decide, by decide⟩

/-- C9 amended: with empty filtered subsets each detector returns an empty
alert collection with a fixed column shape, never an absent or malformed
result; the root-level Rule B table has exactly the claimed columns, while
both brute-force tables omit username and the packaged Rule B table has
success_time/failure_count in place of start_time/end_time/count. -/
theorem c9_empty_subsets_shape (events : List Event) (th w th2 w2 : Int) :
    (events.filter failedPred = [] →
      detect_bruteforce_by_ip events th w = []
      ∧ detect_bruteforce_by_ip_v0 events th w = []
      ∧ detect_bruteforce_columns events th w = bf_empty_columns
      ∧ detect_bruteforce_columns_v0 events th w = bf_empty_columns)
    ∧ (events.filter failedPred = [] ∨ events.filter successPred = [] →
      detect_success_after_failures events th2 w2 = []
      ∧ detect_saf_columns events th2 w2 = saf_empty_columns
      ∧ saf_empty_columns = spec_alert_columns
      ∧ detect_success_after_failures_v0 events th2 w2 = []
      ∧ detect_saf_columns_v0 events th2 w2 = saf_empty_columns_v0) := by
  constructor
  · intro h
    refine ⟨?_, ?_, ?_, ?_⟩
    · simp [detect_bruteforce_by_ip, h]
    · simp [detect_bruteforce_by_ip_v0, h]
    · simp [detect_bruteforce_columns, h]
    · simp [detect_bruteforce_columns_v0, h]
  · intro h
    cases h with
    | inl h =>
      refine ⟨?_, ?_, by decide, ?_, ?_⟩
      · simp [detect_success_after_failures, h]
      · simp [detect_saf_columns, h]
      · simp [detect_success_after_failures_v0, h]
      · simp [detect_saf_columns_v0, h]
    | inr h =>
      refine ⟨?_, ?_, by decide, ?_, ?_⟩
      · simp [detect_success_after_failures, h]
      · simp [detect_saf_columns, h]
      · simp [detect_success_after_failures_v0, h]
      · simp [detect_saf_columns_v0, h]

/-- Witness for C9 amended, at the empty event collection. -/
theorem c9_empty_subsets_shape_witness :
    ([] : List Event).filter failedPred = []
    ∧ detect_saf_columns [] 5 30 = saf_empty_columns
    ∧ detect_bruteforce_columns [] 8 10 = bf_empty_columns :=
  ⟨by decide,
   ((c9_empty_subsets_shape [] 8 10 5 30).2 (Or.inl (by decide))).2.1,
   ((c9_empty_subsets_shape [] 8 10 5 30).1 (by decide)).2.2.1⟩

/-- Case analysis of one partition scan when every pair of its timestamps is
within the window: the left cursor never moves, so with exactly threshold rows
the scan fires once with count = threshold, and with fewer rows it never fires. -/
theorem bf_group_scan_cases (g : List Event) (p : String) (th w : Int) (h1 : 1 ≤ th)
    (hwin : ∀ e1 ∈ g, ∀ e2 ∈ g, tsD e1 - tsD e2 ≤ 60 * w) :
    ((g.length : Int) = th →
      ∃ a, bfScanAux (g.map tsD) (g.map Event.raw) p (60 * w) th g.length 0 0 = [a]
        ∧ a.alert_type = "BRUTE_FORCE_IP" ∧ a.ip = p ∧ (a.count : Int) = th)
    ∧ ((g.length : Int) < th →
      bfScanAux (g.map tsD) (g.map Event.raw) p (60 * w) th g.length 0 0 = []) := by
  have hwT : ∀ i j, i < (g.map tsD).length → j < (g.map tsD).length →
      (g.map tsD).getD i 0 - (g.map tsD).getD j 0 ≤ 60 * w := by
    intro i j hi hj
    have hi' : i < g.length := by simpa using hi
    have hj' : j < g.length := by simpa using hj
    rw [getD_map_tsD g i hi', getD_map_tsD g j hj']
    exact hwin _ (List.get_mem g i hi') _ (List.get_mem g j hj')
  constructor
  · intro hF
    have hfire := bfScan_within_fire (g.map tsD) (g.map Event.raw) p (60 * w) th hwT h1
      (by simp only [List.length_map]; omega) g.length 0 (by simp) (by omega)
    refine ⟨bfAlertAt (g.map tsD) (g.map Event.raw) p 0 (th.toNat - 1), hfire, rfl, rfl, ?_⟩
    simp only [bfAlertAt]
    omega
  · intro hF
    exact bfScan_within_no_fire (g.map tsD) (g.map Event.raw) p (60 * w) th hwT
      (by simp only [List.length_map]; omega) g.length 0 (by simp)

/-- C3: with threshold >= 1 and a nonnegative window, an ip whose qualifying
failures number exactly threshold and pairwise lie within the closed window
(a gap exactly equal to the window still counts) yields exactly one
BRUTE_FORCE_IP alert with count = threshold, and an ip with only
threshold - 1 such failures yields no alert. -/
theorem c3_exact_threshold_fires_once (events : List Event) (p : String) (th w : Int)
    (h1 : 1 ≤ th)
    (hwin : ∀ e1 ∈ (events.filter failedPred).filter (fun e => decide (e.ip = some p)),
            ∀ e2 ∈ (events.filter failedPred).filter (fun e => decide (e.ip = some p)),
              tsD e1 - tsD e2 ≤ 60 * w) :
    ((((events.filter failedPred).filter (fun e => decide (e.ip = some p))).length : Int) = th →
      ∃ a, (detect_bruteforce_by_ip events th w).filter (fun x => decide (x.ip = p)) = [a]
        ∧ a.alert_type = "BRUTE_FORCE_IP" ∧ a.ip = p ∧ (a.count : Int) = th)
    ∧ ((((events.filter failedPred).filter
          (fun e => decide (e.ip = some p))).length : Int) = th - 1 →
      (detect_bruteforce_by_ip events th w).filter (fun x => decide (x.ip = p)) = []) := by
  have hperm : List.Perm (sortByTs (events.filter failedPred)) (events.filter failedPred) :=
    List.perm_insertionSort _ _
  have hgF : List.Perm
      ((sortByTs (events.filter failedPred)).filter (fun e => decide (e.ip = some p)))
      ((events.filter failedPred).filter (fun e => decide (e.ip = some p))) :=
    hperm.filter _
  have hlen := hgF.length_eq
  have hsub : ∀ e ∈ (sortByTs (events.filter failedPred)).filter
      (fun e => decide (e.ip = some p)),
      e ∈ (events.filter failedPred).filter (fun e => decide (e.ip = some p)) :=
    fun e he => hgF.subset he
  have hwing : ∀ e1 ∈ (sortByTs (events.filter failedPred)).filter
      (fun e => decide (e.ip = some p)),
      ∀ e2 ∈ (sortByTs (events.filter failedPred)).filter
        (fun e => decide (e.ip = some p)),
      tsD e1 - tsD e2 ≤ 60 * w :=
    fun e1 he1 e2 he2 => hwin _ (hsub _ he1) _ (hsub _ he2)
  have hcases := bf_group_scan_cases
    ((sortByTs (events.filter failedPred)).filter (fun e => decide (e.ip = some p)))
    p th w h1 hwing
  constructor
  · intro hF
    have hglen : ((((sortByTs (events.filter failedPred)).filter
        (fun e => decide (e.ip = some p))).length : Int)) = th := by
      rw [hlen]; exact hF
    obtain ⟨a, hscan, hat, hip, hcount⟩ := hcases.1 hglen
    have hgne : (sortByTs (events.filter failedPred)).filter
        (fun e => decide (e.ip = some p)) ≠ [] := by
      intro hnil
      rw [hnil] at hglen
      simp at hglen
      omega
    obtain ⟨e, he⟩ := List.exists_mem_of_ne_nil _ hgne
    have hes := List.mem_filter.mp he
    have hpk : p ∈ groupKeys (sortByTs (events.filter failedPred)) :=
      (mem_groupKeys p _).mpr ⟨e, hes.1, of_decide_eq_true hes.2⟩
    rw [detect_bruteforce_filter_ip, if_pos hpk]
    exact ⟨a, hscan, hat, hip, hcount⟩
  · intro hF
    rw [detect_bruteforce_filter_ip]
    by_cases hpk : p ∈ groupKeys (sortByTs (events.filter failedPred))
    · rw [if_pos hpk]
      refine hcases.2 ?_
      rw [hlen]
      omega
    · rw [if_neg hpk]

def eventsC3 : List Event :=
  [⟨some 0, some "h", some "sshd", "FAILED_LOGIN", some "u", some "9.9.9.9", "fa"⟩,
   ⟨some 600, some "h", some "sshd", "FAILED_LOGIN", some "u", some "9.9.9.9", "fb"⟩]

/-- Witness for C3 on two failures whose gap is exactly the 10-minute window:
threshold 2 fires exactly once with count 2 (closed window edge), threshold 3
sees only 3 - 1 failures and stays silent. -/
theorem c3_exact_threshold_fires_once_witness :
    (∃ a, (detect_bruteforce_by_ip eventsC3 2 10).filter
        (fun x => decide (x.ip = "9.9.9.9")) = [a]
      ∧ a.alert_type = "BRUTE_FORCE_IP" ∧ a.ip = "9.9.9.9" ∧ (a.count : Int) = 2)
    ∧ (detect_bruteforce_by_ip eventsC3 3 10).filter
        (fun x => decide (x.ip = "9.9.9.9")) = [] :=
  ⟨(c3_exact_threshold_fires_once eventsC3 "9.9.9.9" 2 10 (by decide)
      (by decide)).1 (by decide),
   (c3_exact_threshold_fires_once eventsC3 "9.9.9.9" 3 10 (by decide)
      (by decide)).2 (by decide)⟩

/-- C5: over any event collection, threshold and (nonnegative) window, the
brute-force detector emits at most one BRUTE_FORCE_IP alert per distinct ip:
the scan of each partition stops at its first alert, and each ip is scanned
exactly once. -/
theorem c5_at_most_one_alert_per_ip (events : List Event) (th w : Int) (p : String)
    (_hw : 0 ≤ w) :
    ((detect_bruteforce_by_ip events th w).filter (fun a => decide (a.ip = p))).length ≤ 1 := by
  rw [detect_bruteforce_filter_ip]
  split
  · exact bfScanAux_length _ _ _ _ _ _ _ _
  · simp

/-- Witness for C5: an ip with three qualifying failures and threshold 1 (so
several qualifying sub-windows exist) still gets at most one alert. -/
theorem c5_at_most_one_alert_per_ip_witness :
    (0 : Int) ≤ 10
    ∧ ((detect_bruteforce_by_ip
        [⟨some 0, none, none, "FAILED_LOGIN", none, some "1.1.1.1", "f1"⟩,
         ⟨some 60, none, none, "FAILED_LOGIN", none, some "1.1.1.1", "f2"⟩,
         ⟨some 120, none, none, "FAILED_LOGIN", none, some "1.1.1.1", "f3"⟩] 1 10).filter
        (fun a => decide (a.ip = "1.1.1.1"))).length ≤ 1 :=
  ⟨by decide, c5_at_most_one_alert_per_ip _ 1 10 _ (by decide)⟩

/-- Support for C4: the root-level detect_success_after_failures does emit,
for every qualifying success, one alert whose start_time is the minimum
recent-failure timestamp, end_time the success timestamp, and count the
number of recent failures - the behaviour the claim, the spec, and the
repository's own test_detections.py describe. -/
theorem detect_saf_emits (events : List Event) (th w : Int) (s : Event)
    (hs : s ∈ events.filter successPred) (h1 : 1 ≤ th)
    (hth : th ≤ ((recentFailures (events.filter failedPred) s.ip (tsD s)
      (60 * w)).length : Int)) :
    (⟨"SUCCESS_AFTER_FAILURES", "HIGH", s.ip, s.username,
      tsMin (recentFailures (events.filter failedPred) s.ip (tsD s) (60 * w)), tsD s,
      (recentFailures (events.filter failedPred) s.ip (tsD s) (60 * w)).length,
      safEvidence (recentFailures (events.filter failedPred) s.ip (tsD s) (60 * w)) s⟩ :
      SAFAlert) ∈ detect_success_after_failures events th w := by
  have hRne : recentFailures (events.filter failedPred) s.ip (tsD s) (60 * w) ≠ [] := by
    intro h
    rw [h] at hth
    simp at hth
    omega
  have hfail : events.filter failedPred ≠ [] := by
    intro h
    exact hRne (by simp [recentFailures, h])
  have hsucc : events.filter successPred ≠ [] := List.ne_nil_of_mem hs
  simp only [detect_success_after_failures]
  rw [if_neg (by simp [List.isEmpty_iff, hfail, hsucc])]
  exact List.mem_filterMap.mpr ⟨s, hs, by rw [if_pos hth]⟩

def eventsRuleB : List Event :=
  [⟨some 0, some "h", some "sshd", "FAILED_LOGIN", some "u", some "1.1.1.1", "f1"⟩,
   ⟨some 60, some "h", some "sshd", "FAILED_LOGIN", some "u", some "1.1.1.1", "f2"⟩,
   ⟨some 120, some "h", some "sshd", "FAILED_LOGIN", some "u", some "1.1.1.1", "f3"⟩,
   ⟨some 180, some "h", some "sshd", "FAILED_LOGIN", some "u", some "1.1.1.1", "f4"⟩,
   ⟨some 240, some "h", some "sshd", "FAILED_LOGIN", some "u", some "1.1.1.1", "f5"⟩,
   ⟨some 300, some "h", some "sshd", "SUCCESS_LOGIN", some "guenda", some "1.1.1.1", "s"⟩]

/-- C4: on a qualifying success (5 recent failures, threshold 5) the packaged
detect_success_after_failures - the one app.py, run.py and the tests import -
emits an alert holding only success_time and failure_count: its table has no
start_time, end_time or count column at all, so no emitted field equals the
minimum recent-failure timestamp. The root-level rewrite of the same function
emits exactly the fields the claim (and the repository's tests) describe. -/
theorem c4_packaged_rule_b_fields :
    detect_success_after_failures_v0 eventsRuleB 5 30 =
      [⟨"SUCCESS_AFTER_FAILURES", "HIGH", some "1.1.1.1", some "guenda", 300, 5,
        "f3 | f4 | f5 | s"⟩]
    ∧ "start_time" ∉ saf_alert_columns_v0
    ∧ "end_time" ∉ saf_alert_columns_v0
    ∧ "count" ∉ saf_alert_columns_v0
    ∧ detect_success_after_failures eventsRuleB 5 30 =
      [⟨"SUCCESS_AFTER_FAILURES", "HIGH", some "1.1.1.1", some "guenda", some 0, 300, 5,
        "f3 | f4 | f5 | s"⟩] :=
  ⟨by decide, by decide, by decide, by decide, by decide⟩

def eventsRuleA : List Event :=
  [⟨some 0, none, none, "FAILED_LOGIN", none, some "1.1.1.1", "f1"⟩,
   ⟨some 60, none, none, "FAILED_LOGIN", none, some "1.1.1.1", "f2"⟩]

/-- C6: the brute-force detector imported by the application and the tests
(src/src/detections.py) emits alert dicts with no username key, so its alerts
carry no username at all, let alone "multiple/unknown"; the root-level copy
adds username = "multiple/unknown" exactly as the claim states. -/
theorem c6_packaged_alert_lacks_username :
    detect_bruteforce_by_ip_v0 eventsRuleA 2 10 =
      [⟨"BRUTE_FORCE_IP", "HIGH", "1.1.1.1", 0, 60, 2, "f1 | f2"⟩]
    ∧ "username" ∉ bf_alert_columns_v0
    ∧ "username" ∈ bf_alert_columns
    ∧ detect_bruteforce_by_ip eventsRuleA 2 10 =
      [⟨"BRUTE_FORCE_IP", "HIGH", "1.1.1.1", 0, 60, 2, "f1 | f2", "multiple/unknown"⟩] :=
  ⟨by decide, by decide, by decide, by decide⟩

end LogDetective
